import Mathlib

/-!
Shallow embedding of `src/homework.py` (class `CheckingPhenomenon`), a
Wikipedia "Getting to Philosophy" crawler.  HTML tags are modelled as records
carrying the fields the code inspects (tag name, optional `href`); a fetched
page is modelled by the data the code extracts from it (post-redirect final
URL, heading text, the content node's stripped text fragments in document
order, and the content node's tags in document order).  The HTTP fetch is a
parameter `fetch : String → Option Page`; `none` models any exception raised
inside the loop body (network failure, malformed page), which the code
catches with `except Exception`.
-/

namespace Homework

/-- An HTML tag as seen by `_check_good_link`: its name and optional `href`
attribute. -/
structure Tag where
  name : String
  href : Option String
  deriving DecidableEq, Repr

/-- The data of one fetched page used by `_parse_and_count_words`:
`finalUrl` is `resp.url` (the post-redirect URL), `heading` the text of the
`firstHeading` node, `strippedStrings` the content node's stripped text
fragments in document order, `tags` the content node's tags in document
order (what `find_all` traverses). -/
structure Page where
  finalUrl : String
  heading : String
  strippedStrings : List String
  tags : List Tag
  deriving DecidableEq, Repr

/-- The strip set of `_strip_and_lowercase_the_word`, from the Python literal
`'()^%#@&!?-.,[]:;"\'\/\\'` (in which `\/` denotes backslash-slash and `\\`
a backslash, so the backslash occurs twice). -/
def stripSet : List Char :=
  ['(', ')', '^', '%', '#', '@', '&', '!', '?', '-', '.', ',', '[', ']',
   ':', ';', '"', '\'', '\\', '/', '\\']

/-- Python `str.strip(chars)`: remove leading and trailing characters that
belong to `cs`. -/
def pyStrip (cs : List Char) (s : String) : String :=
  String.mk (((s.data.dropWhile (cs.contains ·)).reverse.dropWhile
    (cs.contains ·)).reverse)

/-- Python `str.lower`, modelled per character. -/
def pyLower (s : String) : String :=
  String.mk (s.data.map Char.toLower)

/-- Embeds `_strip_and_lowercase_the_word`: strip the fixed punctuation set, then
lowercase. -/
def stripAndLowercaseTheWord (word : String) : String :=
  pyLower (pyStrip stripSet word)

/-- Helper for `pySplitWhitespace`: walk the characters, `cur` holding the
(reversed) current token. -/
def splitWhitespaceAux : List Char → List Char → List String
  | [], cur => if cur.isEmpty then [] else [String.mk cur.reverse]
  | c :: cs, cur =>
    if c.isWhitespace then
      if cur.isEmpty then splitWhitespaceAux cs []
      else String.mk cur.reverse :: splitWhitespaceAux cs []
    else splitWhitespaceAux cs (c :: cur)

/-- Python `str.split()` with no argument: split on whitespace runs,
discarding empty pieces. -/
def pySplitWhitespace (s : String) : List String :=
  splitWhitespaceAux s.data []

/-- Python `str.startswith(pre)`, modelled on the character lists. -/
def pyStartsWith (s pre : String) : Bool :=
  pre.data.isPrefixOf s.data

/-- Python `c in s` for a character, modelled on the character list. -/
def pyContainsChar (s : String) (c : Char) : Bool :=
  s.data.contains c

/-- Embeds `_check_good_link`: the tag is an anchor, has an `href`, the `href`
starts with `/wiki` and contains no colon. -/
def checkGoodLink (tag : Tag) : Bool :=
  tag.name == "a" &&
    (match tag.href with
     | some h => pyStartsWith h ("/wiki") && !(pyContainsChar h ':')
     | none => false)

/-- The absolute URL built at line 58: `f"https://en.wikipedia.org{tag['href']}"`. -/
def absoluteUrl (href : String) : String :=
  "https://en.wikipedia.org" ++ href

/-- The loop of `_find_and_save_next_url`: scan the good-link tags in
document order and return the first whose absolute URL is not visited;
`none` models the fall-through (dead-end print and `exit(code=0)`). -/
def findAndSaveNextUrl (tags : List Tag) (visited : List String) : Option String :=
  match tags with
  | [] => none
  | tag :: rest =>
    if checkGoodLink tag then
      let newUrl := absoluteUrl (tag.href.getD (""))
      if visited.contains newUrl then findAndSaveNextUrl rest visited
      else some newUrl
    else findAndSaveNextUrl rest visited

/-- The inner loop of `_get_words_from_page`: `prepared_word` is repeatedly
overwritten, so only the normalization of the last token survives (`acc`
starts as the empty string set at line 71). -/
def lastPreparedWord (acc : String) : List String → String
  | [] => acc
  | word :: rest => lastPreparedWord (stripAndLowercaseTheWord word) rest

/-- Embeds `_get_words_from_page`: for each stripped text fragment, split it into
tokens, run the overwriting inner loop, and append the surviving
`prepared_word` when it is non-empty. -/
def getWordsFromPage (strippedStrings : List String) : List String :=
  match strippedStrings with
  | [] => []
  | text :: rest =>
    let preparedWord := lastPreparedWord ("") (pySplitWhitespace text)
    if preparedWord ≠ "" then preparedWord :: getWordsFromPage rest
    else getWordsFromPage rest

/-- Modelled from the spec: the word extraction the spec describes — every
whitespace-separated token of every fragment whose normalization is
non-empty, in order.  Used only to compare with `getWordsFromPage`. -/
def getWordsFromPageSpec (strippedStrings : List String) : List String :=
  match strippedStrings with
  | [] => []
  | text :: rest =>
    ((pySplitWhitespace text).map stripAndLowercaseTheWord).filter
      (fun w => w ≠ "") ++ getWordsFromPageSpec rest

/-- Embeds `collections.Counter` as an insertion-ordered association list
(Python dicts preserve insertion order).  `counterIncr` adds one occurrence
of `w`. -/
def counterIncr (c : List (String × Nat)) (w : String) : List (String × Nat) :=
  match c with
  | [] => [(w, 1)]
  | (x, n) :: rest =>
    if x == w then (x, n + 1) :: rest else (x, n) :: counterIncr rest w

/-- Embeds `self._wiki_words_counter += Counter(words)` (line 50): add one
occurrence per word, existing keys keep their position, new keys are
appended at first occurrence. -/
def counterAddWords (c : List (String × Nat)) (words : List String) :
    List (String × Nat) :=
  words.foldl counterIncr c

/-- Stable insertion by count descending, for `Counter.most_common`. -/
def insertByCount (p : String × Nat) : List (String × Nat) → List (String × Nat)
  | [] => [p]
  | q :: qs => if q.2 ≤ p.2 then p :: q :: qs else q :: insertByCount p qs

/-- Embeds `Counter.most_common(n)`: the entries sorted by count descending
(stable), truncated to `n`. -/
def mostCommon (n : Nat) (c : List (String × Nat)) : List (String × Nat) :=
  (c.foldr insertByCount []).take n

/-- One printed line of output.  The constructors carry the data
interpolated into the corresponding f-string of the source. -/
inductive Line where
  /-- Embeds `print(self._heading.text)` (line 105). -/
  | headingLine (text : String)
  /-- The `FoundPhilosophy` verdict with the iteration index `i` (line 107). -/
  | philosophyVerdict (i : Nat)
  /-- Embeds the print of line 62, announcing the dead end. -/
  | deadEndLine1
  /-- Embeds the print of line 63, which echoes `self._url`. -/
  | deadEndLine2 (url : String)
  /-- The exhausted-budget verdict naming `max_page_number` (lines 114-115). -/
  | exhaustedVerdict (maxPageNumber : Nat)
  /-- The top-ten-words line of `_print_statistics` (lines 95-96). -/
  | statsTop10 (pairs : List (String × Nat))
  /-- The average-words line of `_print_statistics` (lines 97-98). -/
  | statsAvg (avg : Nat)
  /-- Embeds `print(e)` for the caught exception (line 112). -/
  | errorLine
  deriving DecidableEq, Repr

/-- Embeds `_print_statistics(number_of_iterations)`: the lines it prints, and
whether it completed.  The top-ten line is printed first; the second print
evaluates `total // number_of_iterations`, which raises an uncaught
`ZeroDivisionError` when `number_of_iterations` is `0`, so only then the
average line is missing and the flag is `false`. -/
def printStatistics (c : List (String × Nat)) (total numberOfIterations : Nat) :
    List Line × Bool :=
  if numberOfIterations = 0 then ([Line.statsTop10 (mostCommon 10 c)], false)
  else ([Line.statsTop10 (mostCommon 10 c),
         Line.statsAvg (total / numberOfIterations)], true)

/-- How the process ends.  Every path of the source ends in `exit(code=0)`
or a normal return except the uncaught `ZeroDivisionError`, which ends the
process with the interpreter's exit code 1. -/
inductive Outcome where
  | foundPhilosophy
  | deadEnd
  | exhausted
  | failed
  | crashed
  deriving DecidableEq, Repr

/-- The process exit code for each outcome: `exit(code=0)` / `exit()` /
normal return give 0; an uncaught exception gives 1. -/
def exitCode : Outcome → Nat
  | Outcome.crashed => 1
  | _ => 0

/-- The mutable fields of `CheckingPhenomenon` that the loop updates:
`_url`, `_visited_pages`, `_wiki_words_counter`,
`_total_number_of_words_on_wiki_pages`. -/
structure CrawlState where
  url : String
  visited : List String
  counter : List (String × Nat)
  total : Nat
  deriving DecidableEq, Repr

/-- The `__init__` state for a given starting URL. -/
def initState (startingUrl : String) : CrawlState :=
  { url := startingUrl, visited := [], counter := [], total := 0 }

/-- What one call of `_parse_and_count_words` computes when the fetch
succeeds: the updated fields and the result of the embedded
`_find_and_save_next_url` call (`none` = dead-end exit). -/
structure ParseResult where
  visited : List String
  counter : List (String × Nat)
  total : Nat
  heading : String
  finalUrl : String
  nextUrl : Option String
  deriving Repr

/-- Embeds `_parse_and_count_words` (lines 39-53): fetch, record the post-redirect
URL into the visited set, count the words, then look for the next URL with
the already-updated visited set.  `none` models an exception during the
fetch/parse. -/
def parseAndCountWords (fetch : String → Option Page) (st : CrawlState) :
    Option ParseResult :=
  match fetch st.url with
  | none => none
  | some page =>
    let currentUrl := page.finalUrl
    let visited := st.visited.insert currentUrl
    let words := getWordsFromPage page.strippedStrings
    some { visited := visited
           counter := counterAddWords st.counter words
           total := st.total + words.length
           heading := page.heading
           finalUrl := currentUrl
           nextUrl := findAndSaveNextUrl page.tags visited }

/-- The result of a run: terminal outcome, everything printed, and the
final field values. -/
structure RunResult where
  outcome : Outcome
  output : List Line
  finalState : CrawlState
  deriving Repr

/-- The body of `run` (lines 100-116): `for i in range(max_page_number)`,
modelled with `fuel` counting the remaining iterations (initially
`maxPageNumber`, so `i + fuel = maxPageNumber` throughout).  Inside an
iteration: a failed fetch is the caught exception path (`print(e); exit()`);
a dead-end inside `_find_and_save_next_url` prints its two lines and exits
with code 0 before the heading is printed; otherwise the heading is printed
and compared with `"Philosophy"`.  After the loop the exhausted verdict is
printed and `_print_statistics(max_page_number)` runs, crashing when
`maxPageNumber = 0`. -/
def runLoop (fetch : String → Option Page) (maxPageNumber : Nat) :
    Nat → Nat → CrawlState → List Line → RunResult
  | 0, _, st, out =>
    let stats := printStatistics st.counter st.total maxPageNumber
    { outcome := if stats.2 then Outcome.exhausted else Outcome.crashed
      output := out ++ [Line.exhaustedVerdict maxPageNumber] ++ stats.1
      finalState := st }
  | fuel + 1, i, st, out =>
    match parseAndCountWords fetch st with
    | none => { outcome := Outcome.failed, output := out ++ [Line.errorLine],
                finalState := st }
    | some r =>
      match r.nextUrl with
      | none =>
        { outcome := Outcome.deadEnd
          output := out ++ [Line.deadEndLine1, Line.deadEndLine2 st.url]
          finalState := { url := st.url, visited := r.visited,
                          counter := r.counter, total := r.total } }
      | some nextUrl =>
        let st' : CrawlState :=
          { url := nextUrl, visited := r.visited, counter := r.counter,
            total := r.total }
        let out' := out ++ [Line.headingLine r.heading]
        if r.heading == "Philosophy" then
          { outcome := Outcome.foundPhilosophy
            output := out' ++ [Line.philosophyVerdict i] ++
              (printStatistics r.counter r.total (i + 1)).1
            finalState := st' }
        else runLoop fetch maxPageNumber fuel (i + 1) st' out'

/-- Embeds `run()` for a fetch oracle, starting URL and `max_page_number`. -/
def run (fetch : String → Option Page) (startingUrl : String)
    (maxPageNumber : Nat) : RunResult :=
  runLoop fetch maxPageNumber maxPageNumber 0 (initState startingUrl) []

/-- Modelled from the spec: the link selection described in §4.2 — the first
qualifying candidate (in document order) whose absolute URL is unvisited.
Used only to compare with `findAndSaveNextUrl`. -/
def selectNextLinkSpec (tags : List Tag) (visited : List String) : Option String :=
  ((tags.filter checkGoodLink).map (fun t => absoluteUrl (t.href.getD ("")))).find?
    (fun u => !(visited.contains u))

/-- Recognizes the two statistics lines of `_print_statistics`. -/
def isStatsLine : Line → Bool
  | Line.statsTop10 _ => true
  | Line.statsAvg _ => true
  | _ => false

/-- Holds when the output ends with the Philosophy verdict followed by the
two statistics lines. -/
def endsPhilosophyStats (l : List Line) : Bool :=
  match l.reverse with
  | Line.statsAvg _ :: Line.statsTop10 _ :: Line.philosophyVerdict _ :: _ => true
  | _ => false

/-- Holds when the output ends with the exhausted verdict for `maxPageNumber`
followed by the two statistics lines. -/
def endsExhaustedStats (maxPageNumber : Nat) (l : List Line) : Bool :=
  match l.reverse with
  | Line.statsAvg _ :: Line.statsTop10 _ :: Line.exhaustedVerdict m :: _ =>
    m == maxPageNumber
  | _ => false

/-- Holds when the output ends with the two dead-end diagnostic lines. -/
def endsDeadEndReport (l : List Line) : Bool :=
  match l.reverse with
  | Line.deadEndLine2 _ :: Line.deadEndLine1 :: _ => true
  | _ => false

/-! ### Auxiliary lemmas -/

theorem contains_true_of_mem {α : Type} [BEq α] [LawfulBEq α] {l : List α}
    {a : α} (h : a ∈ l) : l.contains a = true :=
  List.elem_iff.mpr h

theorem not_mem_of_contains_false {α : Type} [BEq α] [LawfulBEq α]
    {l : List α} {a : α} (h : l.contains a = false) : a ∉ l := by
  intro hm
  rw [show l.contains a = l.elem a from rfl, List.elem_iff.mpr hm] at h
  cases h

theorem pyLower_eq_empty_iff (s : String) : pyLower s = "" ↔ s = "" := by
  constructor
  · intro h
    have hd := congrArg String.data h
    simp only [pyLower] at hd
    have : s.data = [] := List.map_eq_nil_iff.mp hd
    cases s
    simp_all
  · intro h
    subst h
    rfl

theorem stripAndLowercase_eq_empty_iff (w : String) :
    stripAndLowercaseTheWord w = "" ↔ pyStrip stripSet w = "" :=
  pyLower_eq_empty_iff _

/-! ### Claims -/

/-- C8: `_strip_and_lowercase_the_word` strips the fixed punctuation set and
lowercases; it returns the empty string exactly when the stripped result is
empty; tokens made only of strip-set characters normalize to empty, and the
three concrete examples of the spec hold. -/
theorem normalize_spec :
    (∀ w : String, (∀ ch ∈ w.data, ch ∈ stripSet) →
      stripAndLowercaseTheWord w = "") ∧
    stripAndLowercaseTheWord ("Hello,") = "hello" ∧
    stripAndLowercaseTheWord ("[Brackets]") = "brackets" ∧
    stripAndLowercaseTheWord ("") = "" ∧
    (∀ w : String, stripAndLowercaseTheWord w = "" ↔ pyStrip stripSet w = "") := by
  refine ⟨?_, by decide, by decide, rfl, stripAndLowercase_eq_empty_iff⟩
  intro w hall
  have hdrop : w.data.dropWhile (stripSet.contains ·) = [] :=
    List.dropWhile_eq_nil_iff.mpr fun x hx => contains_true_of_mem (hall x hx)
  unfold stripAndLowercaseTheWord pyStrip
  rw [hdrop]
  rfl

/-- C8 witness: a token made only of strip-set punctuation normalizes to the
empty string. -/
theorem normalize_spec_witness : stripAndLowercaseTheWord (",;[]") = "" :=
  normalize_spec.1 (",;[]") (by decide)

/-- C9: for at least one iteration, `_print_statistics` reports the average
as the truncating integer division of the total word count by the number of
iterations (characterized by the Euclidean bounds), and 100 words over 3
iterations give 33. -/
theorem average_words_spec :
    ∀ (c : List (String × Nat)) (total n : Nat), 1 ≤ n →
      (printStatistics c total n).1 =
        [Line.statsTop10 (mostCommon 10 c), Line.statsAvg (total / n)] ∧
      (total / n) * n ≤ total ∧ total < (total / n + 1) * n ∧
      (printStatistics c 100 3).1 =
        [Line.statsTop10 (mostCommon 10 c), Line.statsAvg 33] := by
  intro c total n hn
  refine ⟨?_, Nat.div_mul_le_self total n, ?_, rfl⟩
  · rw [printStatistics, if_neg (by omega)]
  · have h1 := Nat.div_add_mod total n
    have h2 := Nat.mod_lt total (show 0 < n by omega)
    calc total = n * (total / n) + total % n := h1.symm
      _ < n * (total / n) + n := by omega
      _ = (total / n + 1) * n := by ring

/-- C9 witness: the average line for 100 words over 3 iterations. -/
theorem average_words_spec_witness :
    (printStatistics [] 100 3).1 =
      [Line.statsTop10 (mostCommon 10 []), Line.statsAvg (100 / 3)] :=
  (average_words_spec [] 100 3 (by decide)).1

/-- C6: an anchor tag qualifies if and only if it has an `href` that starts
with `/wiki` and contains no colon, and the absolute URL is formed by
prepending `https://en.wikipedia.org` to the chosen `href`. -/
theorem good_link_spec :
    ∀ tag : Tag, tag.name = "a" →
      ((checkGoodLink tag = true ↔
          ∃ h, tag.href = some h ∧ pyStartsWith h ("/wiki") = true ∧
            pyContainsChar h ':' = false) ∧
        ∀ h : String, absoluteUrl h = "https://en.wikipedia.org" ++ h) := by
  intro tag hname
  refine ⟨?_, fun _ => rfl⟩
  obtain ⟨name, href⟩ := tag
  subst hname
  cases href with
  | none => simp [checkGoodLink]
  | some h => simp [checkGoodLink]

/-- C6 witness: `/wiki/Bar` qualifies on an anchor. -/
theorem good_link_spec_witness :
    checkGoodLink { name := "a", href := some "/wiki/Bar" } = true :=
  ((good_link_spec { name := "a", href := some "/wiki/Bar" } rfl).1).mpr
    ⟨"/wiki/Bar", rfl, by decide, by decide⟩

/-- C5: `_find_and_save_next_url` computes exactly the first qualifying
candidate (in document order) whose absolute URL is unvisited, and in
particular never returns an already-visited URL. -/
theorem link_selector_skips_visited :
    ∀ (tags : List Tag) (visited : List String),
      findAndSaveNextUrl tags visited = selectNextLinkSpec tags visited ∧
      ∀ u, findAndSaveNextUrl tags visited = some u → u ∉ visited := by
  intro tags visited
  have key : findAndSaveNextUrl tags visited = selectNextLinkSpec tags visited := by
    induction tags with
    | nil => rfl
    | cons t rest ih =>
      simp only [selectNextLinkSpec] at ih ⊢
      cases hg : checkGoodLink t with
      | false =>
        rw [List.filter_cons_of_neg (by rw [hg]; exact Bool.false_ne_true)]
        simp only [findAndSaveNextUrl, hg, Bool.false_eq_true, if_false]
        exact ih
      | true =>
        simp only [findAndSaveNextUrl, hg, if_true,
          List.filter_cons_of_pos hg, List.map_cons, List.find?_cons]
        cases hv : visited.contains (absoluteUrl (t.href.getD (""))) with
        | false => simp only [hv, Bool.not_false, Bool.false_eq_true, if_false]
        | true => simp only [hv, Bool.not_true, Bool.true_eq_false, if_true]; exact ih
  refine ⟨key, fun u hu => ?_⟩
  rw [key] at hu
  have hp := List.find?_some hu
  exact not_mem_of_contains_false (by
    cases hc : visited.contains u with
    | false => rfl
    | true => rw [hc] at hp; cases hp)

/-- C5 witness: with the first candidate already visited, the second is
returned, and it is not in the visited set. -/
theorem link_selector_skips_visited_witness :
    "https://en.wikipedia.org/wiki/B" ∉ ["https://en.wikipedia.org/wiki/A"] :=
  (link_selector_skips_visited
      [{ name := "a", href := some "/wiki/A" }, { name := "a", href := some "/wiki/B" }]
      ["https://en.wikipedia.org/wiki/A"]).2
    ("https://en.wikipedia.org/wiki/B") (by decide)

/-- C7: in every iteration the fetched page's post-redirect `finalUrl` is
added to the visited set before the link selection for that page runs (the
selector is evaluated on a set containing it and all previously visited
URLs), and the visited set of the whole run only ever grows. -/
theorem visited_set_invariant :
    (∀ (fetch : String → Option Page) (st : CrawlState) (page : Page)
        (r : ParseResult),
      fetch st.url = some page → parseAndCountWords fetch st = some r →
        r.visited = st.visited.insert page.finalUrl ∧
        page.finalUrl ∈ r.visited ∧
        (∀ u ∈ st.visited, u ∈ r.visited) ∧
        r.nextUrl = findAndSaveNextUrl page.tags r.visited) ∧
    (∀ (fetch : String → Option Page) (maxPageNumber fuel i : Nat)
        (st : CrawlState) (out : List Line),
      ∀ u ∈ st.visited,
        u ∈ (runLoop fetch maxPageNumber fuel i st out).finalState.visited) := by
  constructor
  · intro fetch st page r hf hp
    rw [parseAndCountWords, hf] at hp
    obtain rfl : _ = r := Option.some.inj hp
    exact ⟨rfl, List.mem_insert_self _ _, fun u hu => List.mem_insert_of_mem hu, rfl⟩
  · intro fetch maxPageNumber fuel
    induction fuel with
    | zero => intro i st out u hu; exact hu
    | succ f ih =>
      intro i st out u hu
      rw [runLoop, parseAndCountWords]
      cases hf : fetch st.url with
      | none => exact hu
      | some page =>
        cases hn : findAndSaveNextUrl page.tags (st.visited.insert page.finalUrl) with
        | none => simpa [hn] using List.mem_insert_of_mem hu
        | some nextUrl =>
          cases hh : page.heading == "Philosophy" with
          | true => simpa [hn, hh] using List.mem_insert_of_mem hu
          | false =>
            simp only [hn, hh, Bool.false_eq_true, if_false]
            exact ih (i + 1) _ _ u (List.mem_insert_of_mem hu)

/-- A concrete page for the C7 witness: one anchorless page. -/
def plainPage : Page :=
  { finalUrl := "https://en.wikipedia.org/wiki/A", heading := "A",
    strippedStrings := [], tags := [] }

/-- The parse result of fetching `plainPage` from the initial state. -/
def plainParse : ParseResult :=
  { visited := ["https://en.wikipedia.org/wiki/A"], counter := [], total := 0,
    heading := "A", finalUrl := "https://en.wikipedia.org/wiki/A",
    nextUrl := none }

/-- C7 witness: after fetching `plainPage`, its final URL is in the visited
set the link selector sees. -/
theorem visited_set_invariant_witness :
    "https://en.wikipedia.org/wiki/A" ∈ plainParse.visited :=
  (visited_set_invariant.1 (fun _ => some plainPage) (initState ("start"))
    plainPage plainParse rfl rfl).2.1

/-- A fetch oracle for which every URL resolves to a "Philosophy" page with
no anchors at all — so no qualifying unvisited link. -/
def philosophyDeadEndFetch : String → Option Page := fun _ =>
  some { finalUrl := "https://en.wikipedia.org/wiki/Philosophy",
         heading := "Philosophy", strippedStrings := [], tags := [] }

/-- C2 counterexample: a run that fetches a "Philosophy" page with no
qualifying unvisited link terminates as the dead end, not as
`FoundPhilosophy` — because `_parse_and_count_words` calls
`_find_and_save_next_url` (which exits on failure) before `run` ever
compares the heading with "Philosophy". -/
theorem philosophy_heading_deadEnd_cx :
    (run philosophyDeadEndFetch ("start") 10).outcome = Outcome.deadEnd ∧
    Outcome.deadEnd ≠ Outcome.foundPhilosophy :=
  ⟨rfl, fun h => nomatch h⟩

/-- C2 (amended): in an iteration whose fetched page is headed "Philosophy",
the link selector runs first, on the visited set already containing the
page's final URL; if it finds no qualifying unvisited link the run ends as
the dead end, and only if it finds one does the run end as
`FoundPhilosophy`, printing the heading, the verdict with the iteration
index, and the two statistics lines. -/
theorem philosophy_after_link_selection :
    ∀ (fetch : String → Option Page) (maxPageNumber fuel i : Nat)
      (st : CrawlState) (out : List Line) (page : Page),
      fetch st.url = some page → page.heading = "Philosophy" →
      (findAndSaveNextUrl page.tags (st.visited.insert page.finalUrl) = none →
        (runLoop fetch maxPageNumber (fuel + 1) i st out).outcome =
          Outcome.deadEnd ∧
        (runLoop fetch maxPageNumber (fuel + 1) i st out).output =
          out ++ [Line.deadEndLine1, Line.deadEndLine2 st.url]) ∧
      (∀ u, findAndSaveNextUrl page.tags (st.visited.insert page.finalUrl) =
          some u →
        (runLoop fetch maxPageNumber (fuel + 1) i st out).outcome =
          Outcome.foundPhilosophy ∧
        (runLoop fetch maxPageNumber (fuel + 1) i st out).output =
          out ++ [Line.headingLine ("Philosophy"), Line.philosophyVerdict i,
            Line.statsTop10 (mostCommon 10 (counterAddWords st.counter
              (getWordsFromPage page.strippedStrings))),
            Line.statsAvg ((st.total +
              (getWordsFromPage page.strippedStrings).length) / (i + 1))]) := by
  intro fetch maxPageNumber fuel i st out page hf hh
  constructor
  · intro hnone
    rw [runLoop, parseAndCountWords, hf]
    simp [hnone]
  · intro u hu
    rw [runLoop, parseAndCountWords, hf]
    simp only [hu, hh]
    rw [if_pos (by rfl)]
    refine ⟨rfl, ?_⟩
    rw [printStatistics, if_neg (by omega)]
    simp

/-- C2 witness: a concrete iteration on a linkless "Philosophy" page ends
as the dead end with the two diagnostic lines. -/
theorem philosophy_after_link_selection_witness :
    (runLoop philosophyDeadEndFetch 10 10 0 (initState ("start")) []).outcome =
      Outcome.deadEnd ∧
    (runLoop philosophyDeadEndFetch 10 10 0 (initState ("start")) []).output =
      [] ++ [Line.deadEndLine1, Line.deadEndLine2 ("start")] :=
  (philosophy_after_link_selection philosophyDeadEndFetch 10 9 0
    (initState ("start")) []
    { finalUrl := "https://en.wikipedia.org/wiki/Philosophy",
      heading := "Philosophy", strippedStrings := [], tags := [] }
    rfl rfl).1 rfl

/-- C4 counterexample: with `max_page_number = 0` the run ends in the
uncaught `ZeroDivisionError`, so the process exit code is 1, not 0. -/
theorem exit_code_zero_cx :
    exitCode (run (fun _ => none) ("start") 0).outcome = 1 ∧ (1 : Nat) ≠ 0 :=
  ⟨rfl, by decide⟩

/-- C4 (amended): for every fetch oracle, starting URL and
`max_page_number ≥ 1`, the process exits with code 0 in every termination
state (`FoundPhilosophy`, `DeadEnd`, `Exhausted`, and `Failed` after a fetch
error). -/
theorem exit_code_zero :
    ∀ (fetch : String → Option Page) (startingUrl : String)
      (maxPageNumber : Nat), 1 ≤ maxPageNumber →
      exitCode (run fetch startingUrl maxPageNumber).outcome = 0 := by
  intro fetch startingUrl maxPageNumber hmax
  have H : ∀ (fuel i : Nat) (st : CrawlState) (out : List Line),
      exitCode (runLoop fetch maxPageNumber fuel i st out).outcome = 0 := by
    intro fuel
    induction fuel with
    | zero =>
      intro i st out
      show exitCode
        (if (printStatistics st.counter st.total maxPageNumber).2
          then Outcome.exhausted else Outcome.crashed) = 0
      rw [printStatistics, if_neg (show ¬maxPageNumber = 0 by omega)]
      rfl
    | succ f ih =>
      intro i st out
      rw [runLoop]
      cases hp : parseAndCountWords fetch st with
      | none => simp only [hp]; rfl
      | some r =>
        simp only [hp]
        cases hn : r.nextUrl with
        | none => simp only [hn]; rfl
        | some nextUrl =>
          simp only [hn]
          cases hh : r.heading == "Philosophy" with
          | true => simp only [hh]; rfl
          | false =>
            simp only [hh, Bool.false_eq_true, if_false]
            exact ih _ _ _
  exact H maxPageNumber 0 (initState startingUrl) []

/-- C4 witness: a failing fetch with budget 1 still exits with code 0. -/
theorem exit_code_zero_witness :
    exitCode (run (fun _ => none) ("w") 1).outcome = 0 :=
  exit_code_zero (fun _ => none) ("w") 1 (by decide)

/-- C1: the extraction loop of `_get_words_from_page` overwrites
`prepared_word` inside the inner `for`, so of the fragment "Hello world"
only the last token's normalization reaches the aggregator, against both
the spec and the method's own comment ("collect all of the words"): the
word list has length 1, not 2, so the counter and the total undercount. -/
theorem get_words_drops_all_but_last_token :
    getWordsFromPage [("Hello world")] = ["world"] ∧
    getWordsFromPageSpec [("Hello world")] = ["hello", "world"] ∧
    getWordsFromPage [("Hello world")] ≠ getWordsFromPageSpec [("Hello world")] ∧
    counterAddWords [] (getWordsFromPage [("Hello world")]) = [("world", 1)] ∧
    (getWordsFromPage [("Hello world")]).length = 1 := by
  exact ⟨rfl, rfl, by decide, rfl, rfl⟩

/-- C10 (amended): with `max_page_number = 0` the loop body never runs (the
result does not depend on the fetch oracle), the exhausted verdict and the
top-ten statistics line are printed, and then the division by zero crashes
the process with a non-zero exit code before the average line is printed. -/
theorem zero_budget_crashes :
    ∀ (fetch : String → Option Page) (startingUrl : String),
      run fetch startingUrl 0 =
        { outcome := Outcome.crashed,
          output := [Line.exhaustedVerdict 0, Line.statsTop10 []],
          finalState := initState startingUrl } ∧
      exitCode (run fetch startingUrl 0).outcome = 1 :=
  fun _ _ => ⟨rfl, rfl⟩

/-- C10 counterexample: the claim says the crash happens without printing
statistics, but the run with budget 0 does print one of the two statistics
lines (the top-ten line) before crashing. -/
theorem zero_budget_prints_top10_cx :
    (run (fun _ => none) ("start") 0).outcome = Outcome.crashed ∧
    ((run (fun _ => none) ("start") 0).output.any (fun l => isStatsLine l)) =
      true :=
  ⟨rfl, rfl⟩

theorem endsPhilosophyStats_append (pre : List Line) (i : Nat)
    (c : List (String × Nat)) (a : Nat) :
    endsPhilosophyStats (pre ++ [Line.philosophyVerdict i,
      Line.statsTop10 c, Line.statsAvg a]) = true := by
  simp [endsPhilosophyStats, List.reverse_append]

theorem endsExhaustedStats_append (pre : List Line) (m : Nat)
    (c : List (String × Nat)) (a : Nat) :
    endsExhaustedStats m (pre ++ [Line.exhaustedVerdict m,
      Line.statsTop10 c, Line.statsAvg a]) = true := by
  simp [endsExhaustedStats, List.reverse_append]

theorem endsDeadEndReport_append (pre : List Line) (u : String) :
    endsDeadEndReport (pre ++ [Line.deadEndLine1, Line.deadEndLine2 u]) = true := by
  simp [endsDeadEndReport, List.reverse_append]

/-- C3 (amended): a `FoundPhilosophy` or `Exhausted` termination prints its
verdict followed by the top-ten line and the average line as the two final
lines; a `DeadEnd` termination instead ends with the two-line diagnostic
naming the current URL and prints no statistics line at all. -/
theorem terminal_output_statistics :
    ∀ (fetch : String → Option Page) (startingUrl : String)
      (maxPageNumber : Nat),
      ((run fetch startingUrl maxPageNumber).outcome = Outcome.foundPhilosophy →
        endsPhilosophyStats (run fetch startingUrl maxPageNumber).output = true) ∧
      ((run fetch startingUrl maxPageNumber).outcome = Outcome.exhausted →
        endsExhaustedStats maxPageNumber
          (run fetch startingUrl maxPageNumber).output = true) ∧
      ((run fetch startingUrl maxPageNumber).outcome = Outcome.deadEnd →
        endsDeadEndReport (run fetch startingUrl maxPageNumber).output = true ∧
        (run fetch startingUrl maxPageNumber).output.all
          (fun l => !(isStatsLine l)) = true) := by
  intro fetch startingUrl maxPageNumber
  have H : ∀ (fuel i : Nat) (st : CrawlState) (out : List Line),
      out.all (fun l => !(isStatsLine l)) = true →
      ((runLoop fetch maxPageNumber fuel i st out).outcome =
          Outcome.foundPhilosophy →
        endsPhilosophyStats
          (runLoop fetch maxPageNumber fuel i st out).output = true) ∧
      ((runLoop fetch maxPageNumber fuel i st out).outcome = Outcome.exhausted →
        endsExhaustedStats maxPageNumber
          (runLoop fetch maxPageNumber fuel i st out).output = true) ∧
      ((runLoop fetch maxPageNumber fuel i st out).outcome = Outcome.deadEnd →
        endsDeadEndReport
          (runLoop fetch maxPageNumber fuel i st out).output = true ∧
        (runLoop fetch maxPageNumber fuel i st out).output.all
          (fun l => !(isStatsLine l)) = true) := by
    intro fuel
    induction fuel with
    | zero =>
      intro i st out hout
      by_cases hm : maxPageNumber = 0
      · subst hm
        simp [runLoop, printStatistics]
      · have houtc : (runLoop fetch maxPageNumber 0 i st out).outcome =
            Outcome.exhausted := by
          show (if (printStatistics st.counter st.total maxPageNumber).2
            then Outcome.exhausted else Outcome.crashed) = Outcome.exhausted
          rw [printStatistics, if_neg hm]
          rfl
        refine ⟨fun h => ?_, fun _ => ?_, fun h => ?_⟩
        · rw [houtc] at h; exact Outcome.noConfusion h
        · show endsExhaustedStats maxPageNumber
            (out ++ [Line.exhaustedVerdict maxPageNumber] ++
              (printStatistics st.counter st.total maxPageNumber).1) = true
          rw [printStatistics, if_neg hm, List.append_assoc]
          exact endsExhaustedStats_append out maxPageNumber
            (mostCommon 10 st.counter) (st.total / maxPageNumber)
        · rw [houtc] at h; exact Outcome.noConfusion h
    | succ f ih =>
      intro i st out hout
      rw [runLoop]
      cases hp : parseAndCountWords fetch st with
      | none =>
        simp only [hp]
        exact ⟨fun h => Outcome.noConfusion h, fun h => Outcome.noConfusion h,
          fun h => Outcome.noConfusion h⟩
      | some r =>
        simp only [hp]
        cases hn : r.nextUrl with
        | none =>
          simp only [hn]
          refine ⟨fun h => Outcome.noConfusion h, fun h => Outcome.noConfusion h,
            fun _ => ⟨endsDeadEndReport_append out st.url, ?_⟩⟩
          rw [List.all_append, hout]
          rfl
        | some nextUrl =>
          simp only [hn]
          cases hh : r.heading == "Philosophy" with
          | true =>
            simp only [hh, if_true]
            refine ⟨fun _ => ?_, fun h => Outcome.noConfusion h,
              fun h => Outcome.noConfusion h⟩
            show endsPhilosophyStats
              ((out ++ [Line.headingLine r.heading]) ++
                [Line.philosophyVerdict i] ++
                (printStatistics r.counter r.total (i + 1)).1) = true
            rw [printStatistics, if_neg (Nat.succ_ne_zero i), List.append_assoc]
            exact endsPhilosophyStats_append (out ++ [Line.headingLine r.heading])
              i (mostCommon 10 r.counter) (r.total / (i + 1))
          | false =>
            simp only [hh, Bool.false_eq_true, if_false]
            refine ih (i + 1) _ (out ++ [Line.headingLine r.heading]) ?_
            rw [List.all_append, hout]
            rfl
  exact H maxPageNumber 0 (initState startingUrl) [] rfl

/-- An anchorless non-Philosophy page whose fetch produces a dead end. -/
def deadEndFetch : String → Option Page := fun _ =>
  some { finalUrl := "https://en.wikipedia.org/wiki/A", heading := "A",
         strippedStrings := [], tags := [] }

/-- C3 counterexample: a `DeadEnd` termination prints its two diagnostic
lines and no statistics line at all, contrary to the claim that statistics
are printed in every terminal state. -/
theorem deadEnd_without_statistics_cx :
    (run deadEndFetch ("start") 10).outcome = Outcome.deadEnd ∧
    (run deadEndFetch ("start") 10).output =
      [Line.deadEndLine1, Line.deadEndLine2 ("start")] ∧
    (run deadEndFetch ("start") 10).output.all
      (fun l => !(isStatsLine l)) = true :=
  ⟨rfl, rfl, rfl⟩

/-- A one-page world whose only page is headed "Philosophy" and has one
qualifying link, so the run succeeds immediately. -/
def philosophyFetch : String → Option Page := fun _ =>
  some { finalUrl := "https://en.wikipedia.org/wiki/Philosophy",
         heading := "Philosophy", strippedStrings := [],
         tags := [{ name := "a", href := some "/wiki/B" }] }

/-- C3 witness: a concrete `FoundPhilosophy` run ends with the verdict and
the two statistics lines. -/
theorem terminal_output_statistics_witness :
    endsPhilosophyStats (run philosophyFetch ("start") 3).output = true :=
  (terminal_output_statistics philosophyFetch ("start") 3).1 rfl

end Homework
